import Mathlib

set_option autoImplicit false
set_option maxRecDepth 8192

namespace JamiatTracker

/-! Shallow embedding of the tool handlers of src/server.py.

A Python dict is insertion ordered, so a project record is embedded as an
association list of field name to field value, and the table of records as
an association list of project id to record. -/

/-- A single project record, mirroring one inner dict literal of `PROJECTS`. -/
abbrev ProjectInfo := List (String × String)

/-- The table type of `PROJECTS`: insertion-ordered id-to-record map. -/
abbrev Table := List (String × ProjectInfo)

/-- The static in-memory table `PROJECTS` of src/server.py, in source order. -/
def PROJECTS : Table := [
  ("jamiat", [("name", "Jamiat"), ("website status", "live"), ("dashboard status", "live"), ("deployment platform", "Vercel"), ("cost", "$20/mo")]),
  ("sama", [("name", "SAMA"), ("website status", "live"), ("dashboard status", "development"), ("deployment platform", "Vercel"), ("cost", "$20/mo")]),
  ("safe", [("name", "SAFE"), ("website status", "live"), ("dashboard status", "live"), ("deployment platform", "Vercel"), ("cost", "$20/mo")]),
  ("next", [("name", "NEXT"), ("website status", "live"), ("dashboard status", "development"), ("deployment platform", "Vercel"), ("cost", "$20/mo")]),
  ("hamqadam", [("name", "Hamqadam"), ("website status", "live"), ("dashboard status", "live"), ("deployment platform", "Vercel + Sanity"), ("cost", "$45/mo")])
]

/-- Python `info[key]` on a record. Every record of `PROJECTS` carries all
five field keys (proved below), so the `KeyError` branch of the source is
unreachable on this table and the default value is never produced. -/
def fieldOf (info : ProjectInfo) (key : String) : String :=
  (info.lookup key).getD ""

/-- Python `str.lower()`, restricted to the ASCII data this program holds:
lowercases every character of the string. Defined structurally on the
character list so that the kernel can evaluate it. -/
def pyLower (s : String) : String :=
  ⟨s.data.map Char.toLower⟩

/-- Python `repr` of a list of strings, as produced by the f-string
`f"... Available: \x7blist(PROJECTS.keys())\x7d"`: single-quoted items,
comma-space separated, square brackets. -/
def pyListRepr (keys : List String) : String :=
  "[" ++ String.intercalate ", " (keys.map fun k => "\x27" ++ k ++ "\x27") ++ "]"

/-- JSON rendering of one string, as `json.dumps` renders the ASCII field
names and values of this table: double quotes, no escapes needed. -/
def jsonQuote (s : String) : String :=
  "\"" ++ s ++ "\""

/-- The field lines of `json.dumps(info, indent=2)` at the given indent,
joined by comma-newline, in record (insertion) order. -/
def dumpsFields (indent : String) (info : ProjectInfo) : String :=
  String.intercalate ",\n" (info.map fun kv => indent ++ jsonQuote kv.1 ++ ": " ++ jsonQuote kv.2)

/-- Python `json.dumps(info, indent=2)` on one record. -/
def dumpsObj (info : ProjectInfo) : String :=
  if info.isEmpty then "\x7b\x7d" else "\x7b\n" ++ dumpsFields "  " info ++ "\n\x7d"

/-- Python `json.dumps(matches, indent=2)` on an id-to-record dict: nested
objects are indented two further spaces. -/
def dumpsTable (ms : Table) : String :=
  if ms.isEmpty then "\x7b\x7d" else
    "\x7b\n" ++ String.intercalate ",\n" (ms.map fun pr =>
      "  " ++ jsonQuote pr.1 ++ ": " ++
        (if pr.2.isEmpty then "\x7b\x7d" else "\x7b\n" ++ dumpsFields "    " pr.2 ++ "\n  \x7d")) ++
    "\n\x7d"

/-- The miss message of `get_project`: the id is echoed in the exact casing
the caller supplied, followed by the Python repr of the key list. -/
def notFoundMsg (table : Table) (project_id : String) : String :=
  ("❌ Project \x27" ++ project_id) ++
    ("\x27 not found. Available: " ++ pyListRepr (table.map Prod.fst))

/-- `get_project` of src/server.py over an explicit table: lowercase the id,
look it up, serialize the record on a hit, message on a miss. Python tests
`if not project`, which also treats an empty dict as a miss. -/
def get_project_t (table : Table) (project_id : String) : String :=
  match table.lookup (pyLower project_id) with
  | none => notFoundMsg table project_id
  | some info => if info.isEmpty then notFoundMsg table project_id else dumpsObj info

/-- `get_project` of src/server.py, on the static table. -/
def get_project (project_id : String) : String :=
  get_project_t PROJECTS project_id

/-- The one summary line `list_projects` builds for a table entry. -/
def projectLine (pr : String × ProjectInfo) : String :=
  "• " ++ fieldOf pr.2 "name" ++ " (" ++ pr.1 ++ ") - " ++
    fieldOf pr.2 "website status" ++ " - " ++ fieldOf pr.2 "dashboard status" ++ " - " ++
    fieldOf pr.2 "deployment platform" ++ " - " ++ fieldOf pr.2 "cost"

/-- `list_projects` of src/server.py over an explicit table: one line per
record in table order, joined by newlines. -/
def list_projects_t (table : Table) : String :=
  String.intercalate "\n" (table.map projectLine)

/-- `list_projects` of src/server.py, on the static table. -/
def list_projects : String :=
  list_projects_t PROJECTS

/-- Python `str.replace(pat, repl)` on character lists, fuel-bounded so the
kernel can evaluate it: scans left to right, replaces each non-overlapping
occurrence of `pat`. The fuel is instantiated with the string length, an
upper bound on the number of scan steps. -/
def replaceCharsFuel (pat repl : List Char) : Nat → List Char → List Char
  | _, [] => []
  | 0, s => s
  | n + 1, c :: s =>
    if !pat.isEmpty && pat.isPrefixOf (c :: s) then
      repl ++ replaceCharsFuel pat repl n ((c :: s).drop pat.length)
    else
      c :: replaceCharsFuel pat repl n s

/-- Python `s.replace(pat, repl)` for the nonempty patterns this program
uses. -/
def pyReplace (s pat repl : String) : String :=
  ⟨replaceCharsFuel pat.data repl.data s.data.length s.data⟩

/-- The stripped cost string of a record: Python
`info["cost"].replace("$", "").replace("/mo", "")`. -/
def costString (info : ProjectInfo) : String :=
  pyReplace (pyReplace (fieldOf info "cost") "$" "") "/mo" ""

/-- Python `float(s)` restricted to the nonnegative integer literals this
table holds (every cost magnitude in `PROJECTS` is an integer string):
`none` models the `ValueError` that `float` raises on an unparseable
string and that would escape the handler. -/
def pyParseNat (s : String) : Option Nat :=
  if !s.data.isEmpty && s.data.all Char.isDigit then
    some (s.data.foldl (fun n c => n * 10 + (c.toNat - 48)) 0)
  else
    none

/-- The numeric magnitude `get_total_cost` obtains from one record:
`float(cost_str) if cost_str != "0" else 0`. -/
def costMagnitude (info : ProjectInfo) : Option Nat :=
  if costString info = "0" then some 0 else pyParseNat (costString info)

/-- The one breakdown line `get_total_cost` appends per record. -/
def breakdownLine (info : ProjectInfo) : String :=
  "  " ++ fieldOf info "name" ++ ": " ++ fieldOf info "cost"

/-- The loop of `get_total_cost`: the running total, whether the Python
total has been promoted from int to float (it is as soon as one stripped
cost string differs from the literal "0"), and the breakdown lines in
table order. `none` models a `ValueError` escaping the loop. -/
def totalAndBreakdown : Table → Option (Nat × Bool × List String)
  | [] => some (0, false, [])
  | pr :: rest => do
    let c ← costMagnitude pr.2
    let r ← totalAndBreakdown rest
    some (c + r.1, (!(costString pr.2 = "0") || r.2.1), breakdownLine pr.2 :: r.2.2)

/-- Python `str(total)`: a float total renders with a trailing `.0` (all
magnitudes of this table are integral), an int total without. -/
def renderTotal (total : Nat) (isFloat : Bool) : String :=
  if isFloat then toString total ++ ".0" else toString total

/-- `get_total_cost` of src/server.py over an explicit table. -/
def get_total_cost_t (table : Table) : Option String :=
  (totalAndBreakdown table).map fun r =>
    "Monthly Hosting Breakdown:\n" ++ String.intercalate "\n" r.2.2 ++
      "\n\nTotal: $" ++ renderTotal r.1 r.2.1 ++ "/mo"

/-- `get_total_cost` of src/server.py, on the static table. -/
def get_total_cost : Option String :=
  get_total_cost_t PROJECTS

/-- One status filter of `search_by_status`: an absent filter imposes no
constraint, a supplied one is compared case-insensitively. -/
def statusMatches (filter : Option String) (fieldValue : String) : Bool :=
  match filter with
  | none => true
  | some f => pyLower fieldValue == pyLower f

/-- The `matches` dict `search_by_status` builds: the records passing both
filters, in table order. -/
def searchMatches (table : Table) (website_status dashboard_status : Option String) : Table :=
  table.filter fun pr =>
    statusMatches website_status (fieldOf pr.2 "website status") &&
      statusMatches dashboard_status (fieldOf pr.2 "dashboard status")

/-- Python rendering of an optional argument inside an f-string: `None`
renders as the literal string `None`, a string renders as itself. -/
def pyOptRepr : Option String → String
  | none => "None"
  | some s => s

/-- The empty-result message of `search_by_status`, naming both filter
values as Python renders them. -/
def noMatchesMsg (website_status dashboard_status : Option String) : String :=
  ("No projects found with website_status=\x27" ++ pyOptRepr website_status) ++
    ("\x27, dashboard_status=\x27" ++ (pyOptRepr dashboard_status ++ "\x27"))

/-- `search_by_status` of src/server.py over an explicit table. -/
def search_by_status_t (table : Table) (website_status dashboard_status : Option String) : String :=
  let found := searchMatches table website_status dashboard_status
  if found.isEmpty then noMatchesMsg website_status dashboard_status
  else dumpsTable found

/-- `search_by_status` of src/server.py, on the static table. -/
def search_by_status (website_status dashboard_status : Option String) : String :=
  search_by_status_t PROJECTS website_status dashboard_status

example : pyLower "JAMIAT" = "jamiat" := by decide
example : costString [("cost", "$20/mo")] = "20" := by decide
example : costMagnitude [("cost", "$45/mo")] = some 45 := by decide

/-! The registry and dispatcher. The code registering the four handlers and
dispatching incoming calls to them lives in the FastMCP framework, outside
this repository, so it is modelled from the spec. -/

/-- Modelled from the spec: the error taxonomy of spec section 7 for the
dispatch-layer faults the claims mention. Structural faults are raised, so
they are the error side of an `Except`. -/
inductive DispatchError where
  | unknownOperation
  | missingArgument (param : String)
  | handlerExecution
deriving DecidableEq

/-- Modelled from the spec: an OperationDescriptor of spec section 3 — the
operation name, its parameter spec as a list of pairs of parameter name and
required flag, and the handler, which receives an argument getter and the
static table and may fail (a failure is wrapped as `HandlerExecutionError`). -/
structure Descriptor where
  opName : String
  params : List (String × Bool)
  handler : (String → Option String) → Table → Option String

/-- Modelled from the spec: the Registry of spec sections 2 and 4.1 — the
four operations in registration order, under the operation names the spec
uses, each handler delegating to the embedded source function. -/
def registry : List Descriptor := [
  ⟨"get_record", [("id", true)], fun get s => (get "id").map (get_project_t s)⟩,
  ⟨"list_records", [], fun _ s => some (list_projects_t s)⟩,
  ⟨"total_cost", [], fun _ s => get_total_cost_t s⟩,
  ⟨"search", [("website_status", false), ("dashboard_status", false)],
    fun get s => some (search_by_status_t s (get "website_status") (get "dashboard_status"))⟩
]

/-- Modelled from the spec: the Dispatcher `invoke` of spec section 4.2,
threading the table as explicit state — resolve the name or fail with
`UnknownOperationError`, fail with `MissingArgumentError` on an absent
required parameter, substitute the absence marker for absent optional
parameters, call the handler, return its string verbatim. Every handler is
a pure read, so the state comes back unchanged. -/
def invokeSt (s : Table) (opName : String) (args : List (String × String)) :
    Except DispatchError String × Table :=
  match registry.find? (fun d => d.opName == opName) with
  | none => (.error .unknownOperation, s)
  | some d =>
    match d.params.find? (fun p => p.2 && (args.lookup p.1).isNone) with
    | some p => (.error (.missingArgument p.1), s)
    | none =>
      match d.handler (fun k => args.lookup k) s with
      | some r => (.ok r, s)
      | none => (.error .handlerExecution, s)

/-- Modelled from the spec: `invoke` on the static table. -/
def invoke (opName : String) (args : List (String × String)) : Except DispatchError String :=
  (invokeSt PROJECTS opName args).1

/-! Specification-side vocabulary used only to state properties. -/

/-- The substring relation used to state the message claims: the character
list of `p` occurs contiguously inside the character list of `s`. -/
def strContains (p s : String) : Prop :=
  p.data <:+: s.data

instance (p s : String) : Decidable (strContains p s) := by
  unfold strContains
  infer_instance

/-- A substring of `b` is a substring of `a ++ b`. -/
theorem strContains_append_left {p b : String} (a : String) (h : strContains p b) :
    strContains p (a ++ b) := by
  obtain ⟨u, v, huv⟩ := h
  refine ⟨a.data ++ u, v, ?_⟩
  cases a with
  | mk la =>
    cases b with
    | mk lb =>
      show la ++ u ++ p.data ++ v = la ++ lb
      have huv' : u ++ p.data ++ v = lb := huv
      rw [← huv']
      simp

/-- Splitting a character list at a separator character; mirrors what the
newline-joined output of `list_projects` decomposes into. -/
def splitOnChar (sep : Char) : List Char → List (List Char)
  | [] => [[]]
  | c :: cs =>
    match splitOnChar sep cs with
    | [] => [[]]
    | r :: rs => if c == sep then [] :: r :: rs else (c :: r) :: rs

/-- The lines of a string: split its characters at newlines. -/
def linesOf (s : String) : List String :=
  (splitOnChar (Char.ofNat 10) s.data).map fun l => ⟨l⟩

/-- A lookup hit in an association list returns one of its values. -/
theorem lookup_mem_snd {α β : Type} [BEq α] {k : α} :
    ∀ {t : List (α × β)} {v : β}, t.lookup k = some v → v ∈ t.map Prod.snd := by
  intro t
  induction t with
  | nil => intro v h; simp [List.lookup] at h
  | cons p rest ih =>
    intro v h
    simp only [List.lookup] at h
    split at h
    · cases h; simp
    · simpa using Or.inr (ih h)

/-- The field keys every record of the static table carries, in the fixed
canonical order in which the serializer emits them. -/
def canonicalKeys : List String :=
  ["name", "website status", "dashboard status", "deployment platform", "cost"]

/-- Claim C1: for every pair of optional filters the search operation keeps
exactly the records that every supplied filter matches case-insensitively
(logical AND, an absent filter imposing no constraint); with no arguments
it keeps every record of the table, and with both filters live it keeps
exactly the records whose two status fields equal live. -/
theorem c1_search_filter_semantics :
    (∀ (ws ds : Option String) (pr : String × ProjectInfo),
        pr ∈ searchMatches PROJECTS ws ds ↔
          pr ∈ PROJECTS ∧
            statusMatches ws (fieldOf pr.2 "website status") = true ∧
            statusMatches ds (fieldOf pr.2 "dashboard status") = true) ∧
    searchMatches PROJECTS none none = PROJECTS ∧
    search_by_status none none = dumpsTable PROJECTS ∧
    searchMatches PROJECTS (some "live") (some "live")
      = PROJECTS.filter (fun pr =>
          pyLower (fieldOf pr.2 "website status") == pyLower "live" &&
            pyLower (fieldOf pr.2 "dashboard status") == pyLower "live") ∧
    (searchMatches PROJECTS (some "live") (some "live")).map Prod.fst
      = ["jamiat", "safe", "hamqadam"] := by
  refine ⟨?_, by decide, by decide, by decide, by decide⟩
  intro ws ds pr
  simp [searchMatches, List.mem_filter, Bool.and_eq_true]

/-- Claim C2: the reported total is the sum, over the static table, of the
magnitudes parsed from the cost strings by stripping the currency symbol
and the period suffix (a literal 0 magnitude being tolerated by the
parser), and the returned text is one breakdown line per record followed
by a total line. -/
theorem c2_total_cost_sum_and_layout :
    get_total_cost = some ("Monthly Hosting Breakdown:\n" ++
        String.intercalate "\n" (PROJECTS.map fun pr => breakdownLine pr.2) ++
        "\n\nTotal: $" ++ renderTotal 125 true ++ "/mo") ∧
    (PROJECTS.map fun pr => (costMagnitude pr.2).getD 0).sum = 125 ∧
    (PROJECTS.all fun pr => (costMagnitude pr.2).isSome) = true ∧
    renderTotal 125 true = "125.0" ∧
    costMagnitude [("cost", "$0/mo")] = some 0 := by
  exact ⟨by decide, by decide, by decide, by decide, by decide⟩

/-- Claim C3: business-logic empty results are ordinary string results,
never faults — a lookup of an unknown id is a successful invoke returning
the not-found message, an empty search returns the no-matches message
naming both filter values, while an unknown operation name and a missing
required argument are raised dispatch errors. -/
theorem c3_empty_results_are_not_faults :
    (∀ id : String, invoke "get_record" [("id", id)] = .ok (get_project id)) ∧
    (∀ id : String, PROJECTS.lookup (pyLower id) = none →
        get_project id = notFoundMsg PROJECTS id) ∧
    (∀ args : List (String × String), invoke "search" args =
        .ok (search_by_status (args.lookup "website_status") (args.lookup "dashboard_status"))) ∧
    (∀ ws ds : Option String, searchMatches PROJECTS ws ds = [] →
        search_by_status ws ds = noMatchesMsg ws ds) ∧
    invoke "no_such_op" [] = .error .unknownOperation ∧
    invoke "get_record" [] = .error (.missingArgument "id") := by
  refine ⟨fun id => rfl, ?_, fun args => rfl, ?_, rfl, rfl⟩
  · intro id h
    simp [get_project, get_project_t, h]
  · intro ws ds h
    simp [search_by_status, search_by_status_t, h]

/-- Witness for claim C3 at concrete inputs: the id ghost misses the table
and yields the not-found string through the message lemma, the website
filter offline matches nothing and yields the no-matches message, and the
two structural faults are errors. -/
theorem c3_witness :
    PROJECTS.lookup (pyLower "ghost") = none ∧
    get_project "ghost" = notFoundMsg PROJECTS "ghost" ∧
    searchMatches PROJECTS (some "offline") none = [] ∧
    search_by_status (some "offline") none = noMatchesMsg (some "offline") none ∧
    invoke "no_such_op" [] = .error .unknownOperation :=
  ⟨by decide,
   c3_empty_results_are_not_faults.2.1 "ghost" (by decide),
   by decide,
   c3_empty_results_are_not_faults.2.2.2.1 (some "offline") none (by decide),
   c3_empty_results_are_not_faults.2.2.2.2.1⟩

/-- Claim C4 as stated is false at a concrete input: the id X is not in the
table, x is a casing variant of it, and the two lookups differ, because the
miss message echoes the exact casing the caller supplied. -/
theorem c4_counterexample_unknown_id_casing :
    ¬ (get_project "X" = get_project "x") := by decide

/-- Claim C4 amended: the lookup is case-insensitive on every id present in
the table — two id strings with the same lowercasing whose lookup hits a
record give identical results. -/
theorem c4_case_insensitive_on_hits :
    ∀ id1 id2 : String, pyLower id1 = pyLower id2 →
      (PROJECTS.lookup (pyLower id1)).isSome = true →
      get_project id1 = get_project id2 := by
  intro id1 id2 hlow hhit
  obtain ⟨info, hinfo⟩ := Option.isSome_iff_exists.mp hhit
  have hinfo2 : PROJECTS.lookup (pyLower id2) = some info := by
    rw [← hlow]; exact hinfo
  have hmem := lookup_mem_snd hinfo
  have hall : (PROJECTS.map Prod.snd).all (fun i => !i.isEmpty) = true := by decide
  have hne : info.isEmpty = false := by
    have h2 := List.all_eq_true.mp hall info hmem
    simpa using h2
  simp [get_project, get_project_t, hinfo, hinfo2, hne]

/-- Witness for the amended claim C4: JAMIAT and jamiat lowercase alike,
hit the table, and return identical results. -/
theorem c4_witness :
    pyLower "JAMIAT" = pyLower "jamiat" ∧
    (PROJECTS.lookup (pyLower "JAMIAT")).isSome = true ∧
    get_project "JAMIAT" = get_project "jamiat" :=
  ⟨by decide, by decide,
   c4_case_insensitive_on_hits "JAMIAT" "jamiat" (by decide) (by decide)⟩

/-- Claim C5: for every id missing from the table (case-insensitively) the
lookup returns, without raising, a message containing the literal substring
not found and enumerating, in quotes, every valid id of the table. -/
theorem c5_miss_message_contents :
    ∀ id : String, PROJECTS.lookup (pyLower id) = none →
      strContains "not found" (get_project id) ∧
      ∀ k ∈ PROJECTS.map Prod.fst, strContains ("\x27" ++ k ++ "\x27") (get_project id) := by
  intro id h
  have hmsg : get_project id = notFoundMsg PROJECTS id := by
    simp [get_project, get_project_t, h]
  rw [hmsg]
  unfold notFoundMsg
  constructor
  · exact strContains_append_left _ (by decide)
  · intro k hk
    simp [PROJECTS] at hk
    rcases hk with rfl | rfl | rfl | rfl | rfl <;>
      exact strContains_append_left _ (by decide)

/-- Witness for claim C5 at the concrete id ghost: the lookup misses, the
result contains not found, and it names the id hamqadam in quotes. -/
theorem c5_witness :
    PROJECTS.lookup (pyLower "ghost") = none ∧
    strContains "not found" (get_project "ghost") ∧
    strContains ("\x27" ++ "hamqadam" ++ "\x27") (get_project "ghost") :=
  ⟨by decide,
   (c5_miss_message_contents "ghost" (by decide)).1,
   (c5_miss_message_contents "ghost" (by decide)).2 "hamqadam" (by decide)⟩

/-- Claim C6: a hit serializes the record as the indented JSON text block,
and the fields of every record of the table appear in the one canonical
key order. -/
theorem c6_hit_serialization_key_order :
    ((PROJECTS.map Prod.snd).all fun info => info.map Prod.fst == canonicalKeys) = true ∧
    ∀ id info, PROJECTS.lookup (pyLower id) = some info →
      get_project id = dumpsObj info ∧ info.map Prod.fst = canonicalKeys := by
  refine ⟨by decide, ?_⟩
  intro id info h
  have hmem := lookup_mem_snd h
  have hall : (PROJECTS.map Prod.snd).all
      (fun i => (i.map Prod.fst == canonicalKeys) && !i.isEmpty) = true := by decide
  have hk := List.all_eq_true.mp hall info hmem
  simp only [Bool.and_eq_true, beq_iff_eq, Bool.not_eq_true'] at hk
  refine ⟨?_, hk.1⟩
  simp [get_project, get_project_t, h, hk.2]

/-- Witness for claim C6 at the concrete id jamiat: the lookup hits its
record, the result is the JSON block of that record, and its keys are in
the canonical order. -/
theorem c6_witness :
    PROJECTS.lookup (pyLower "jamiat") = some [("name", "Jamiat"),
      ("website status", "live"), ("dashboard status", "live"),
      ("deployment platform", "Vercel"), ("cost", "$20/mo")] ∧
    get_project "jamiat" = dumpsObj [("name", "Jamiat"),
      ("website status", "live"), ("dashboard status", "live"),
      ("deployment platform", "Vercel"), ("cost", "$20/mo")] ∧
    ([("name", "Jamiat"), ("website status", "live"), ("dashboard status", "live"),
      ("deployment platform", "Vercel"), ("cost", "$20/mo")] : ProjectInfo).map Prod.fst
      = canonicalKeys :=
  ⟨by decide,
   (c6_hit_serialization_key_order.2 "jamiat" _ (by decide)).1,
   (c6_hit_serialization_key_order.2 "jamiat" _ (by decide)).2⟩

/-- Claim C7: the listing takes no parameters and yields exactly one line
per record, in table order, each line carrying the name, website status,
dashboard status, platform and cost separated by the fixed delimiter. -/
theorem c7_listing_one_line_per_record :
    list_projects = String.intercalate "\n" (PROJECTS.map projectLine) ∧
    linesOf list_projects = PROJECTS.map projectLine ∧
    (PROJECTS.all fun pr => projectLine pr ==
        "• " ++ fieldOf pr.2 "name" ++ " (" ++ pr.1 ++ ") - " ++
          String.intercalate " - " [fieldOf pr.2 "website status",
            fieldOf pr.2 "dashboard status", fieldOf pr.2 "deployment platform",
            fieldOf pr.2 "cost"]) = true := by
  exact ⟨rfl, by decide, by decide⟩

/-- Claim C8: invoking an unregistered operation name fails with the
unknown-operation error, and invoking get_record without its required id
fails with the missing-argument error; each call is the error side of the
dispatch result, not a string result. -/
theorem c8_structural_faults :
    invoke "no_such_op" [] = .error .unknownOperation ∧
    invoke "get_record" [] = .error (.missingArgument "id") := by
  exact ⟨rfl, rfl⟩

/-- Claim C9: every handler is deterministic and stateless — from any table
state, any operation invoked with any arguments leaves the state unchanged,
and immediately repeating the same invocation returns the identical
result. -/
theorem c9_idempotent_invocation :
    ∀ (s : Table) (opName : String) (args : List (String × String)),
      (invokeSt s opName args).2 = s ∧
      invokeSt ((invokeSt s opName args).2) opName args = invokeSt s opName args := by
  intro s opName args
  have h2 : (invokeSt s opName args).2 = s := by
    unfold invokeSt
    repeat' split
    all_goals rfl
  exact ⟨h2, by rw [h2]⟩

/-- Claim C10: in the empty-result message an absent filter is rendered as
the literal string None — a search supplying only a website status that
matches nothing names dashboard_status as None rather than omitting it. -/
theorem c10_absent_filter_renders_none :
    (∀ ws : String, searchMatches PROJECTS (some ws) none = [] →
        search_by_status (some ws) none =
          ("No projects found with website_status=\x27" ++ ws) ++
            ("\x27, dashboard_status=\x27" ++ ("None" ++ "\x27"))) ∧
    search_by_status (some "nonexistent") none =
      "No projects found with website_status=\x27nonexistent\x27, dashboard_status=\x27None\x27" := by
  refine ⟨?_, by decide⟩
  intro ws h
  simp [search_by_status, search_by_status_t, h, noMatchesMsg, pyOptRepr]

/-- Witness for claim C10 at the concrete filter offline: the search is
empty and the message renders the absent dashboard filter as None. -/
theorem c10_witness :
    searchMatches PROJECTS (some "offline") none = [] ∧
    search_by_status (some "offline") none =
      ("No projects found with website_status=\x27" ++ "offline") ++
        ("\x27, dashboard_status=\x27" ++ ("None" ++ "\x27")) :=
  ⟨by decide, c10_absent_filter_renders_none.1 "offline" (by decide)⟩

end JamiatTracker
